import Mathlib

/-!
Shallow embedding of the two Cohere chat-engine variants of this repository
(`src/llama_index/chat_engine/cohere_context.py` and
`src/llama_index/chat_engine/cohere_context_plus_citations.py`).

External collaborators (retriever, memory, LLM client, base-class context
helpers) are modelled as explicit parameters; memory is a plain message list
with the `set` / `put` / `get_all` / `reset` operations; each chat entry point
is a pure function of the collaborators, the current memory, and its arguments,
returning the (possibly failing) response together with the memory as it stands
at the return-or-raise point and a trace of the side-effecting operations it
performed, in execution order.
-/

/-- The roles a chat message can carry (`llama_index.core.llms.types.MessageRole`). -/
inductive MessageRole where
  | system
  | user
  | assistant
  | tool
  deriving DecidableEq, Repr

/-- A chat message: role plus optional content
(`llama_index.core.llms.types.ChatMessage`; content is `Optional[str]`). -/
structure ChatMessage where
  role : MessageRole
  content : Option String
  deriving DecidableEq, Repr

/-- A Python-value universe for the dynamically typed payloads this code moves
around: the raw vendor-reply dictionary values, `raw_input` / `raw_output` of a
tool output, and the dict literals built by the engines. -/
inductive PyVal where
  | str : String → PyVal
  | listV : List PyVal → PyVal
  | dictV : List (String × PyVal) → PyVal
  | msg : ChatMessage → PyVal

/-- First value bound to key `k`, if present (Python `d[k]` membership view;
dict keys are unique, so first match is the match). -/
def lookupKey (d : List (String × PyVal)) (k : String) : Option PyVal :=
  (d.find? (fun p => p.1 = k)).map (fun p => p.2)

/-- Python `d.get(k, default)`: the value at `k`, or the default when the key
is absent. -/
def dictGet (d : List (String × PyVal)) (k : String) (dflt : PyVal) : PyVal :=
  (lookupKey d k).getD dflt

/-- A scored context item returned by the retriever
(`llama_index.schema.NodeWithScore`): content plus a relevance score, the
score abstracted to an optional integer since no code here computes on it. -/
structure NodeWithScore where
  text : String
  score : Option Int
  deriving DecidableEq, Repr

/-- Modelled from the spec: the vendor-specific document record shape, "a
restructured form of a RetrievedNode into the external LLM's expected
key/value shape" (spec section 3); the body of the adapter lives in
`llama_index/llms/cohere_utils.py`, outside `src/`. -/
structure VendorDocument where
  fields : List (String × String)
  deriving DecidableEq, Repr

/-- Modelled from the spec: the single-node case of the document adapter,
producing the vendor key/value record for one scored context item. -/
def nodeToVendorDocument (n : NodeWithScore) : VendorDocument :=
  ⟨[("text", n.text)]⟩

/-- Modelled from the spec: `transform_nodes_to_cohere_documents_list`
(imported from `llama_index.llms.cohere_utils`, whose body is outside `src/`):
"takes a sequence of scored context items, returns a sequence of vendor
document records in the same order, one-to-one, with no filtering or
deduplication" (spec section 4.1). -/
def transform_nodes_to_cohere_documents_list
    (nodes : List NodeWithScore) : List VendorDocument :=
  nodes.map nodeToVendorDocument

/-- Conversation memory contents: the ordered message log owned by the memory
collaborator. -/
abbrev Memory := List ChatMessage

namespace Memory

/-- Operation `memory.set(history)`: replace the stored history. -/
def set (_mem : Memory) (h : List ChatMessage) : Memory := h

/-- Operation `memory.put(message)`: append one message. -/
def put (mem : Memory) (m : ChatMessage) : Memory := mem ++ [m]

/-- Operation `memory.get_all()`: read the full ordered log. -/
def get_all (mem : Memory) : List ChatMessage := mem

/-- Operation `memory.reset()`: clear the log. -/
def reset (_mem : Memory) : Memory := []

end Memory

/-- Python `str(...)` of an optional string: `str(None)` is `"None"`,
`str(s)` is `s` itself. -/
def strContent : Option String → String
  | none => "None"
  | some s => s

/-- Printable form of a message role (`MessageRole.value`). -/
def roleString : MessageRole → String
  | .system => "system"
  | .user => "user"
  | .assistant => "assistant"
  | .tool => "tool"

/-- Modelled from the spec: Python `str(ChatMessage)` (role plus content), the
string form the engines store in the source record's `content` field;
`ChatMessage.__str__` is defined outside `src/`. -/
def strMessage (m : ChatMessage) : String :=
  roleString m.role ++ ": " ++ strContent m.content

/-- A streaming LLM reply handle: the stream of content deltas the vendor
sends back.  Draining it yields the final assistant message. -/
structure ChatStream where
  deltas : List String
  deriving DecidableEq, Repr

/-- Modelled from the spec: the assistant message obtained by draining a
stream to completion (spec section 2, Background Memory Writer: "drains a
streaming response and appends the final assistant message"). -/
def streamFinalMessage (s : ChatStream) : ChatMessage :=
  ⟨MessageRole.assistant, some (s.deltas.foldl (fun a b => a ++ b) "")⟩

/-- A non-streaming LLM reply: the reply message plus the raw vendor payload
dictionary (`chat_response.message`, `chat_response.raw`). -/
structure ChatResponse where
  message : ChatMessage
  raw : List (String × PyVal)

/-- Record `llama_index.chat_engine.types.ToolOutput` as constructed by this code. -/
structure ToolOutput where
  tool_name : String
  content : String
  raw_input : List (String × PyVal)
  raw_output : PyVal

/-- Shape `CohereAgentChatResponse`: the non-folding response shape, exposing
top-level `citations` and `documents` (spec section 3, "Plain" shape of the
non-folding variant). -/
structure CohereAgentChatResponse where
  response : String
  citations : PyVal
  documents : PyVal
  sources : List ToolOutput
  source_nodes : List NodeWithScore

/-- Shape `AgentChatResponse`: the citation-folding variant's plain response shape
(citations/documents live inside the single source's `raw_output`). -/
structure AgentChatResponse where
  response : String
  sources : List ToolOutput
  source_nodes : List NodeWithScore

/-- Shape `StreamingAgentChatResponse`: wraps either a sync (`chat_stream`) or an
async (`achat_stream`) stream handle. -/
structure StreamingAgentChatResponse where
  chat_stream : Option ChatStream
  achat_stream : Option ChatStream
  sources : List ToolOutput
  source_nodes : List NodeWithScore

/-- Shape `CohereStreamingAgentChatResponse`: the Cohere-specific streaming response
class used by `CohereContextChatEngine.stream_chat`. -/
structure CohereStreamingAgentChatResponse where
  chat_stream : Option ChatStream
  achat_stream : Option ChatStream
  sources : List ToolOutput
  source_nodes : List NodeWithScore

/-- Python runtime errors the embedded code can raise: an unbound-identifier
lookup (`NameError`) and an out-of-range sequence index (`IndexError`). -/
inductive PyError where
  | nameError (missing : String)
  | indexError
  deriving DecidableEq, Repr

/-- Resolving an identifier against a module's bound names: Python raises
`NameError` when the name is unbound. -/
def lookupName (ns : List String) (n : String) : Except PyError Unit :=
  if n ∈ ns then Except.ok () else Except.error (PyError.nameError n)

/-- Python `l[i]` on a list: the element, or `IndexError` when out of range. -/
def listIndex {α : Type} (l : List α) (i : Nat) : Except PyError α :=
  match l.get? i with
  | some x => Except.ok x
  | none => Except.error PyError.indexError

/-- Names bound at module level in `cohere_context.py`: its imports
(lines 1-16) plus the class it defines.  `StreamingAgentChatResponse` is not
among them — that module imports only the Cohere-specific response classes. -/
def cohereContextModuleNames : List String :=
  ["asyncio", "Thread", "Any", "List", "Optional", "Tuple", "Dict",
   "trace_method", "CohereAgentChatResponse", "CohereStreamingAgentChatResponse",
   "ToolOutput", "BaseRetriever", "ChatMessage", "MessageRole", "LLM",
   "NodeWithScore", "ContextChatEngine",
   "transform_nodes_to_cohere_documents_list", "CohereContextChatEngine"]

/-- Names bound at module level in `cohere_context_plus_citations.py`: its
imports (lines 1-16) plus the class it defines. -/
def cohereContextPlusCitationsModuleNames : List String :=
  ["asyncio", "Thread", "Any", "List", "Optional", "Tuple", "Dict",
   "trace_method", "AgentChatResponse", "StreamingAgentChatResponse",
   "ToolOutput", "BaseRetriever", "ChatMessage", "MessageRole", "LLM",
   "NodeWithScore", "ContextChatEngine",
   "transform_nodes_to_cohere_documents_list",
   "CohereContextPlusCitationsChatEngine"]

/-- Side-effecting operations an entry point performs, in execution order:
memory mutations and LLM invocations (one constructor per LLM calling mode). -/
inductive Event where
  | memSet (history : List ChatMessage)
  | memPut (m : ChatMessage)
  | llmChatCall (msgs : List ChatMessage) (docs : List VendorDocument)
  | llmAchatCall (msgs : List ChatMessage) (docs : List VendorDocument)
  | llmStreamCall (msgs : List ChatMessage) (docs : List VendorDocument)
  | llmAstreamCall (msgs : List ChatMessage) (docs : List VendorDocument)
  deriving DecidableEq, Repr

/-- Whether an event is an LLM invocation (any of the four calling modes). -/
def Event.isLlm : Event → Bool
  | .llmChatCall _ _ => true
  | .llmAchatCall _ _ => true
  | .llmStreamCall _ _ => true
  | .llmAstreamCall _ _ => true
  | _ => false

/-- Whether an event is a `memory.set` (history replacement). -/
def Event.isMemSet : Event → Bool
  | .memSet _ => true
  | _ => false

/-- Whether an event appends a user-role message to memory. -/
def Event.isUserPut : Event → Bool
  | .memPut m => m.role == MessageRole.user
  | _ => false

/-- The message appended by a `memory.put` event, if the event is one. -/
def Event.putMessage : Event → Option ChatMessage
  | .memPut m => some m
  | _ => none

/-- Whether an event is a memory operation (`set` or `put`). -/
def Event.isMemOp : Event → Bool
  | .memSet _ => true
  | .memPut _ => true
  | _ => false

/-- The portion of a trace that precedes the first LLM invocation. -/
def beforeLlm (tr : List Event) : List Event :=
  tr.takeWhile (fun e => ! e.isLlm)

/-- The external collaborators an engine instance delegates to: the base
class's context builders (`_generate_context` / `_agenerate_context` and
`_get_prefix_messages_with_context`) and the LLM client's four calling modes.
Each is an arbitrary pure function of its inputs. -/
structure Env where
  generate_context : String → String × List NodeWithScore
  agenerate_context : String → String × List NodeWithScore
  get_prefix_messages_with_context : String → List ChatMessage
  llm_chat : List ChatMessage → List VendorDocument → ChatResponse
  llm_achat : List ChatMessage → List VendorDocument → ChatResponse
  llm_stream_chat : List ChatMessage → List VendorDocument → ChatStream
  llm_astream_chat : List ChatMessage → List VendorDocument → ChatStream

/-- Outcome of one entry-point call: the returned value (or the Python error
that propagated), the memory as it stands at the return-or-raise point, and
the trace of side-effecting operations performed, in order.  Side effects
performed before an error persist, as in Python. -/
structure EngineResult (ρ : Type) where
  result : Except PyError ρ
  memory : Memory
  trace : List Event

/-- Modelled from the spec: the effect of the detached background writer
(`StreamingAgentChatResponse.write_response_to_history`, defined outside
`src/`): drain the stream to completion, then append the final assistant
message to memory (spec sections 2 and 4.4). -/
def write_response_to_history (s : ChatStream) (mem : Memory) : Memory :=
  Memory.put mem (streamFinalMessage s)

/-- Modelled from the spec: the async counterpart
(`awrite_response_to_history`), run inside the detached thread via a fresh
event loop; same drain-then-append effect on memory (spec section 4.5). -/
def awrite_response_to_history (s : ChatStream) (mem : Memory) : Memory :=
  Memory.put mem (streamFinalMessage s)

namespace CohereContextChatEngine

/-- Embedding of `CohereContextChatEngine.chat`
(`cohere_context.py` lines 29-61). -/
def chat (env : Env) (mem : Memory) (message : String)
    (chat_history : Option (List ChatMessage)) :
    EngineResult CohereAgentChatResponse :=
  let mem :=
    match chat_history with
    | some h => Memory.set mem h
    | none => mem
  let tr :=
    match chat_history with
    | some h => [Event.memSet h]
    | none => ([] : List Event)
  let userMsg : ChatMessage := ⟨MessageRole.user, some message⟩
  let mem := Memory.put mem userMsg
  let tr := tr ++ [Event.memPut userMsg]
  let context_str_template := (env.generate_context message).1
  let nodes := (env.generate_context message).2
  let prefix_messages :=
    env.get_prefix_messages_with_context context_str_template
  let all_messages := Memory.get_all mem
  let documents_list := transform_nodes_to_cohere_documents_list nodes
  let chat_response := env.llm_chat all_messages documents_list
  let tr := tr ++ [Event.llmChatCall all_messages documents_list]
  let ai_message := chat_response.message
  let mem := Memory.put mem ai_message
  let tr := tr ++ [Event.memPut ai_message]
  let result : Except PyError CohereAgentChatResponse := do
    let _ ← lookupName cohereContextModuleNames "CohereAgentChatResponse"
    let _ ← lookupName cohereContextModuleNames "ToolOutput"
    let pm0 ← listIndex prefix_messages 0
    pure {
      response := strContent chat_response.message.content,
      citations := dictGet chat_response.raw "citations" (PyVal.listV []),
      documents := dictGet chat_response.raw "documents" (PyVal.listV []),
      sources := [{
        tool_name := "retriever",
        content := strMessage pm0,
        raw_input := [("message", PyVal.str message)],
        raw_output := PyVal.msg pm0 }],
      source_nodes := nodes }
  ⟨result, mem, tr⟩

/-- Embedding of `CohereContextChatEngine.stream_chat`
(`cohere_context.py` lines 63-92).  The detached writer thread's effect is
`write_response_to_history` applied to the returned stream, after return. -/
def stream_chat (env : Env) (mem : Memory) (message : String)
    (chat_history : Option (List ChatMessage)) :
    EngineResult CohereStreamingAgentChatResponse :=
  let mem :=
    match chat_history with
    | some h => Memory.set mem h
    | none => mem
  let tr :=
    match chat_history with
    | some h => [Event.memSet h]
    | none => ([] : List Event)
  let userMsg : ChatMessage := ⟨MessageRole.user, some message⟩
  let mem := Memory.put mem userMsg
  let tr := tr ++ [Event.memPut userMsg]
  let context_str_template := (env.generate_context message).1
  let nodes := (env.generate_context message).2
  let prefix_messages :=
    env.get_prefix_messages_with_context context_str_template
  let all_messages := Memory.get_all mem
  let documents_list := transform_nodes_to_cohere_documents_list nodes
  match lookupName cohereContextModuleNames "CohereStreamingAgentChatResponse" with
  | Except.error e => ⟨Except.error e, mem, tr⟩
  | Except.ok _ =>
    let stream := env.llm_stream_chat all_messages documents_list
    let tr := tr ++ [Event.llmStreamCall all_messages documents_list]
    let result : Except PyError CohereStreamingAgentChatResponse := do
      let _ ← lookupName cohereContextModuleNames "ToolOutput"
      let pm0 ← listIndex prefix_messages 0
      pure {
        chat_stream := some stream,
        achat_stream := none,
        sources := [{
          tool_name := "retriever",
          content := strMessage pm0,
          raw_input := [("message", PyVal.str message)],
          raw_output := PyVal.msg pm0 }],
        source_nodes := nodes }
    ⟨result, mem, tr⟩

/-- Embedding of `CohereContextChatEngine.achat`
(`cohere_context.py` lines 94-125). -/
def achat (env : Env) (mem : Memory) (message : String)
    (chat_history : Option (List ChatMessage)) :
    EngineResult CohereAgentChatResponse :=
  let mem :=
    match chat_history with
    | some h => Memory.set mem h
    | none => mem
  let tr :=
    match chat_history with
    | some h => [Event.memSet h]
    | none => ([] : List Event)
  let userMsg : ChatMessage := ⟨MessageRole.user, some message⟩
  let mem := Memory.put mem userMsg
  let tr := tr ++ [Event.memPut userMsg]
  let context_str_template := (env.agenerate_context message).1
  let nodes := (env.agenerate_context message).2
  let prefix_messages :=
    env.get_prefix_messages_with_context context_str_template
  let all_messages := Memory.get_all mem
  let documents_list := transform_nodes_to_cohere_documents_list nodes
  let chat_response := env.llm_achat all_messages documents_list
  let tr := tr ++ [Event.llmAchatCall all_messages documents_list]
  let ai_message := chat_response.message
  let mem := Memory.put mem ai_message
  let tr := tr ++ [Event.memPut ai_message]
  let result : Except PyError CohereAgentChatResponse := do
    let _ ← lookupName cohereContextModuleNames "CohereAgentChatResponse"
    let _ ← lookupName cohereContextModuleNames "ToolOutput"
    let pm0 ← listIndex prefix_messages 0
    pure {
      response := strContent chat_response.message.content,
      citations := dictGet chat_response.raw "citations" (PyVal.listV []),
      documents := dictGet chat_response.raw "documents" (PyVal.listV []),
      sources := [{
        tool_name := "retriever",
        content := strMessage pm0,
        raw_input := [("message", PyVal.str message)],
        raw_output := PyVal.msg pm0 }],
      source_nodes := nodes }
  ⟨result, mem, tr⟩

/-- Embedding of `CohereContextChatEngine.astream_chat`
(`cohere_context.py` lines 127-160).  Line 140 names
`StreamingAgentChatResponse`; that identifier is not bound in
`cohere_context.py`'s module namespace (the module imports only the
Cohere-specific response classes), and Python resolves the constructor name
before evaluating its arguments, so the lookup raises `NameError` before the
streaming LLM call is issued. -/
def astream_chat (env : Env) (mem : Memory) (message : String)
    (chat_history : Option (List ChatMessage)) :
    EngineResult StreamingAgentChatResponse :=
  let mem :=
    match chat_history with
    | some h => Memory.set mem h
    | none => mem
  let tr :=
    match chat_history with
    | some h => [Event.memSet h]
    | none => ([] : List Event)
  let userMsg : ChatMessage := ⟨MessageRole.user, some message⟩
  let mem := Memory.put mem userMsg
  let tr := tr ++ [Event.memPut userMsg]
  let context_str_template := (env.agenerate_context message).1
  let nodes := (env.agenerate_context message).2
  let prefix_messages :=
    env.get_prefix_messages_with_context context_str_template
  let all_messages := Memory.get_all mem
  let documents_list := transform_nodes_to_cohere_documents_list nodes
  match lookupName cohereContextModuleNames "StreamingAgentChatResponse" with
  | Except.error e => ⟨Except.error e, mem, tr⟩
  | Except.ok _ =>
    let stream := env.llm_astream_chat all_messages documents_list
    let tr := tr ++ [Event.llmAstreamCall all_messages documents_list]
    let result : Except PyError StreamingAgentChatResponse := do
      let _ ← lookupName cohereContextModuleNames "ToolOutput"
      let pm0 ← listIndex prefix_messages 0
      pure {
        chat_stream := none,
        achat_stream := some stream,
        sources := [{
          tool_name := "retriever",
          content := strMessage pm0,
          raw_input := [("message", PyVal.str message)],
          raw_output := PyVal.msg pm0 }],
        source_nodes := nodes }
    ⟨result, mem, tr⟩

/-- Embedding of `CohereContextChatEngine.reset`
(`cohere_context.py` lines 162-163). -/
def reset (mem : Memory) : Memory :=
  Memory.reset mem

/-- Embedding of the `CohereContextChatEngine.chat_history` property
(`cohere_context.py` lines 165-168). -/
def chat_history (mem : Memory) : List ChatMessage :=
  Memory.get_all mem

end CohereContextChatEngine

namespace CohereContextPlusCitationsChatEngine

/-- Embedding of `CohereContextPlusCitationsChatEngine.chat`
(`cohere_context_plus_citations.py` lines 27-61): citations and echoed
documents are folded into the single source's `raw_output` dict. -/
def chat (env : Env) (mem : Memory) (message : String)
    (chat_history : Option (List ChatMessage)) :
    EngineResult AgentChatResponse :=
  let mem :=
    match chat_history with
    | some h => Memory.set mem h
    | none => mem
  let tr :=
    match chat_history with
    | some h => [Event.memSet h]
    | none => ([] : List Event)
  let userMsg : ChatMessage := ⟨MessageRole.user, some message⟩
  let mem := Memory.put mem userMsg
  let tr := tr ++ [Event.memPut userMsg]
  let context_str_template := (env.generate_context message).1
  let nodes := (env.generate_context message).2
  let prefix_messages :=
    env.get_prefix_messages_with_context context_str_template
  let all_messages := Memory.get_all mem
  let documents_list := transform_nodes_to_cohere_documents_list nodes
  let chat_response := env.llm_chat all_messages documents_list
  let tr := tr ++ [Event.llmChatCall all_messages documents_list]
  let ai_message := chat_response.message
  let mem := Memory.put mem ai_message
  let tr := tr ++ [Event.memPut ai_message]
  let result : Except PyError AgentChatResponse := do
    let _ ← lookupName cohereContextPlusCitationsModuleNames "AgentChatResponse"
    let _ ← lookupName cohereContextPlusCitationsModuleNames "ToolOutput"
    let pm0 ← listIndex prefix_messages 0
    pure {
      response := strContent chat_response.message.content,
      sources := [{
        tool_name := "retriever",
        content := strMessage pm0,
        raw_input := [("message", PyVal.str message)],
        raw_output := PyVal.dictV [
          ("prefix_message", PyVal.msg pm0),
          ("documents_list",
            dictGet chat_response.raw "documents" (PyVal.listV [])),
          ("citations",
            dictGet chat_response.raw "citations" (PyVal.listV []))] }],
      source_nodes := nodes }
  ⟨result, mem, tr⟩

/-- Embedding of `CohereContextPlusCitationsChatEngine.stream_chat`
(`cohere_context_plus_citations.py` lines 63-92). -/
def stream_chat (env : Env) (mem : Memory) (message : String)
    (chat_history : Option (List ChatMessage)) :
    EngineResult StreamingAgentChatResponse :=
  let mem :=
    match chat_history with
    | some h => Memory.set mem h
    | none => mem
  let tr :=
    match chat_history with
    | some h => [Event.memSet h]
    | none => ([] : List Event)
  let userMsg : ChatMessage := ⟨MessageRole.user, some message⟩
  let mem := Memory.put mem userMsg
  let tr := tr ++ [Event.memPut userMsg]
  let context_str_template := (env.generate_context message).1
  let nodes := (env.generate_context message).2
  let prefix_messages :=
    env.get_prefix_messages_with_context context_str_template
  let all_messages := Memory.get_all mem
  let documents_list := transform_nodes_to_cohere_documents_list nodes
  match lookupName cohereContextPlusCitationsModuleNames "StreamingAgentChatResponse" with
  | Except.error e => ⟨Except.error e, mem, tr⟩
  | Except.ok _ =>
    let stream := env.llm_stream_chat all_messages documents_list
    let tr := tr ++ [Event.llmStreamCall all_messages documents_list]
    let result : Except PyError StreamingAgentChatResponse := do
      let _ ← lookupName cohereContextPlusCitationsModuleNames "ToolOutput"
      let pm0 ← listIndex prefix_messages 0
      pure {
        chat_stream := some stream,
        achat_stream := none,
        sources := [{
          tool_name := "retriever",
          content := strMessage pm0,
          raw_input := [("message", PyVal.str message)],
          raw_output := PyVal.msg pm0 }],
        source_nodes := nodes }
    ⟨result, mem, tr⟩

/-- Embedding of `CohereContextPlusCitationsChatEngine.achat`
(`cohere_context_plus_citations.py` lines 94-127). -/
def achat (env : Env) (mem : Memory) (message : String)
    (chat_history : Option (List ChatMessage)) :
    EngineResult AgentChatResponse :=
  let mem :=
    match chat_history with
    | some h => Memory.set mem h
    | none => mem
  let tr :=
    match chat_history with
    | some h => [Event.memSet h]
    | none => ([] : List Event)
  let userMsg : ChatMessage := ⟨MessageRole.user, some message⟩
  let mem := Memory.put mem userMsg
  let tr := tr ++ [Event.memPut userMsg]
  let context_str_template := (env.agenerate_context message).1
  let nodes := (env.agenerate_context message).2
  let prefix_messages :=
    env.get_prefix_messages_with_context context_str_template
  let all_messages := Memory.get_all mem
  let documents_list := transform_nodes_to_cohere_documents_list nodes
  let chat_response := env.llm_achat all_messages documents_list
  let tr := tr ++ [Event.llmAchatCall all_messages documents_list]
  let ai_message := chat_response.message
  let mem := Memory.put mem ai_message
  let tr := tr ++ [Event.memPut ai_message]
  let result : Except PyError AgentChatResponse := do
    let _ ← lookupName cohereContextPlusCitationsModuleNames "AgentChatResponse"
    let _ ← lookupName cohereContextPlusCitationsModuleNames "ToolOutput"
    let pm0 ← listIndex prefix_messages 0
    pure {
      response := strContent chat_response.message.content,
      sources := [{
        tool_name := "retriever",
        content := strMessage pm0,
        raw_input := [("message", PyVal.str message)],
        raw_output := PyVal.dictV [
          ("prefix_message", PyVal.msg pm0),
          ("documents_list",
            dictGet chat_response.raw "documents" (PyVal.listV [])),
          ("citations",
            dictGet chat_response.raw "citations" (PyVal.listV []))] }],
      source_nodes := nodes }
  ⟨result, mem, tr⟩

/-- Embedding of `CohereContextPlusCitationsChatEngine.astream_chat`
(`cohere_context_plus_citations.py` lines 129-162).  Here
`StreamingAgentChatResponse` is imported by the module, so the lookup
succeeds. -/
def astream_chat (env : Env) (mem : Memory) (message : String)
    (chat_history : Option (List ChatMessage)) :
    EngineResult StreamingAgentChatResponse :=
  let mem :=
    match chat_history with
    | some h => Memory.set mem h
    | none => mem
  let tr :=
    match chat_history with
    | some h => [Event.memSet h]
    | none => ([] : List Event)
  let userMsg : ChatMessage := ⟨MessageRole.user, some message⟩
  let mem := Memory.put mem userMsg
  let tr := tr ++ [Event.memPut userMsg]
  let context_str_template := (env.agenerate_context message).1
  let nodes := (env.agenerate_context message).2
  let prefix_messages :=
    env.get_prefix_messages_with_context context_str_template
  let all_messages := Memory.get_all mem
  let documents_list := transform_nodes_to_cohere_documents_list nodes
  match lookupName cohereContextPlusCitationsModuleNames "StreamingAgentChatResponse" with
  | Except.error e => ⟨Except.error e, mem, tr⟩
  | Except.ok _ =>
    let stream := env.llm_astream_chat all_messages documents_list
    let tr := tr ++ [Event.llmAstreamCall all_messages documents_list]
    let result : Except PyError StreamingAgentChatResponse := do
      let _ ← lookupName cohereContextPlusCitationsModuleNames "ToolOutput"
      let pm0 ← listIndex prefix_messages 0
      pure {
        chat_stream := none,
        achat_stream := some stream,
        sources := [{
          tool_name := "retriever",
          content := strMessage pm0,
          raw_input := [("message", PyVal.str message)],
          raw_output := PyVal.msg pm0 }],
        source_nodes := nodes }
    ⟨result, mem, tr⟩

/-- Embedding of `CohereContextPlusCitationsChatEngine.reset`
(`cohere_context_plus_citations.py` lines 164-165). -/
def reset (mem : Memory) : Memory :=
  Memory.reset mem

/-- Embedding of the `CohereContextPlusCitationsChatEngine.chat_history`
property (`cohere_context_plus_citations.py` lines 167-170). -/
def chat_history (mem : Memory) : List ChatMessage :=
  Memory.get_all mem

end CohereContextPlusCitationsChatEngine

/-- Effective base history of a call: the provided replacement when one is
given, otherwise the memory as it stood at entry. -/
def effHistory (mem : Memory) : Option (List ChatMessage) → Memory
  | some h => h
  | none => mem

/-- Trace of the optional history-replacement step at the top of every entry
point. -/
def setEvents : Option (List ChatMessage) → List Event
  | some h => [Event.memSet h]
  | none => []

/-- The user-role message every entry point appends for argument `message`. -/
def userMessage (message : String) : ChatMessage :=
  ⟨MessageRole.user, some message⟩

/-- Message list handed to the LLM by every entry point: the effective
history followed by the new user message. -/
def chatMsgs (mem : Memory) (hist : Option (List ChatMessage))
    (message : String) : List ChatMessage :=
  effHistory mem hist ++ [userMessage message]

/-- Vendor documents produced on the synchronous context path. -/
def syncDocs (env : Env) (message : String) : List VendorDocument :=
  transform_nodes_to_cohere_documents_list (env.generate_context message).2

/-- Vendor documents produced on the asynchronous context path. -/
def asyncDocs (env : Env) (message : String) : List VendorDocument :=
  transform_nodes_to_cohere_documents_list (env.agenerate_context message).2

/-- The LLM reply a synchronous non-streaming call receives. -/
def syncReply (env : Env) (mem : Memory) (hist : Option (List ChatMessage))
    (message : String) : ChatResponse :=
  env.llm_chat (chatMsgs mem hist message) (syncDocs env message)

/-- The LLM reply an asynchronous non-streaming call receives. -/
def asyncReply (env : Env) (mem : Memory) (hist : Option (List ChatMessage))
    (message : String) : ChatResponse :=
  env.llm_achat (chatMsgs mem hist message) (asyncDocs env message)

theorem lookup_cohereAgent_ok :
    lookupName cohereContextModuleNames "CohereAgentChatResponse"
      = Except.ok () := by rfl

theorem lookup_cohereStreaming_ok :
    lookupName cohereContextModuleNames "CohereStreamingAgentChatResponse"
      = Except.ok () := by rfl

theorem lookup_toolOutput_cohere_ok :
    lookupName cohereContextModuleNames "ToolOutput" = Except.ok () := by rfl

theorem lookup_streaming_in_cohereContext_fails :
    lookupName cohereContextModuleNames "StreamingAgentChatResponse"
      = Except.error (PyError.nameError "StreamingAgentChatResponse") := by rfl

theorem lookup_agent_citations_ok :
    lookupName cohereContextPlusCitationsModuleNames "AgentChatResponse"
      = Except.ok () := by rfl

theorem lookup_streaming_citations_ok :
    lookupName cohereContextPlusCitationsModuleNames "StreamingAgentChatResponse"
      = Except.ok () := by rfl

theorem lookup_toolOutput_citations_ok :
    lookupName cohereContextPlusCitationsModuleNames "ToolOutput"
      = Except.ok () := by rfl

theorem listIndex_zero {α : Type} (l : List α) (h : l ≠ []) :
    listIndex l 0 = Except.ok (l.head h) := by
  cases l with
  | nil => exact absurd rfl h
  | cons a t => rfl

/-- Sample retrieval result used by the concrete witness environment. -/
def sampleNodes : List NodeWithScore :=
  [⟨"doc one", some 2⟩, ⟨"doc two", none⟩]

/-- Sample prefix-message list used by the concrete witness environment. -/
def samplePrefix : List ChatMessage :=
  [⟨MessageRole.system, some "context here"⟩]

/-- Sample LLM reply whose raw payload carries both vendor keys. -/
def sampleReply : ChatResponse :=
  ⟨⟨MessageRole.assistant, some "the answer"⟩,
   [("citations", PyVal.listV [PyVal.str "c0"]),
    ("documents", PyVal.listV [PyVal.str "d0"])]⟩

/-- Sample LLM reply whose raw payload lacks both vendor keys. -/
def bareReply : ChatResponse :=
  ⟨⟨MessageRole.assistant, some "plain"⟩, []⟩

/-- Shared context builder of the witness environment (used for both the
sync and async paths so the two coincide definitionally). -/
def sampleGen : String → String × List NodeWithScore :=
  fun q => ("ctx for " ++ q, sampleNodes)

/-- Shared non-streaming LLM call of the witness environment. -/
def sampleLlm : List ChatMessage → List VendorDocument → ChatResponse :=
  fun _ _ => sampleReply

/-- Shared streaming LLM call of the witness environment. -/
def sampleStream : List ChatMessage → List VendorDocument → ChatStream :=
  fun _ _ => ⟨["the ", "answer"]⟩

/-- Concrete collaborator environment for evaluating the engines on closed
inputs. -/
def defaultEnv : Env :=
  { generate_context := sampleGen,
    agenerate_context := sampleGen,
    get_prefix_messages_with_context := fun _ => samplePrefix,
    llm_chat := sampleLlm,
    llm_achat := sampleLlm,
    llm_stream_chat := sampleStream,
    llm_astream_chat := sampleStream }

/-- Variant of the witness environment whose LLM replies carry no
`citations` / `documents` keys. -/
def bareEnv : Env :=
  { defaultEnv with
    llm_chat := fun _ _ => bareReply,
    llm_achat := fun _ _ => bareReply }

/-- C1: the claim states every streaming call (stream_chat or astream_chat on
either engine variant) constructs a streaming response wrapping the LLM
stream handle and returns it without raising.  It fails on
`CohereContextChatEngine.astream_chat`: the identifier
`StreamingAgentChatResponse` is unbound in `cohere_context.py`, so for every
environment, memory, message, and optional history the call raises
`NameError` instead of returning a response. -/
theorem c1_cohere_astream_chat_raises_name_error (env : Env) (mem : Memory)
    (message : String) (chat_history : Option (List ChatMessage)) :
    (CohereContextChatEngine.astream_chat env mem message chat_history).result
      = Except.error (PyError.nameError "StreamingAgentChatResponse") := by
  cases chat_history <;> rfl

/-- C7: for every sequence of retrieved scored nodes of length N (including
N = 0), the document adapter returns exactly N vendor document records, one
per input node, in the same order, with no filtering or deduplication (and,
being a total function, never raises). -/
theorem c7_document_adapter_one_to_one (nodes : List NodeWithScore) :
    (transform_nodes_to_cohere_documents_list nodes).length = nodes.length
    ∧ ∀ i : Nat, (transform_nodes_to_cohere_documents_list nodes).get? i
        = (nodes.get? i).map nodeToVendorDocument := by
  constructor
  · simp [transform_nodes_to_cohere_documents_list]
  · intro i
    simp [transform_nodes_to_cohere_documents_list, List.get?_eq_getElem?,
      List.getElem?_map]

/-- C8: for every memory state of either variant, calling `reset()` and then
reading the `chat_history` property returns an empty message sequence. -/
theorem c8_reset_then_history_empty (mem mem2 : Memory) :
    CohereContextChatEngine.chat_history (CohereContextChatEngine.reset mem)
      = []
    ∧ CohereContextPlusCitationsChatEngine.chat_history
        (CohereContextPlusCitationsChatEngine.reset mem2) = [] :=
  ⟨rfl, rfl⟩

theorem listIndex_cons_zero {α : Type} (a : α) (l : List α) :
    listIndex (a :: l) 0 = Except.ok a := rfl

namespace CohereContextChatEngine

theorem cc_chat_trace (env : Env) (mem : Memory) (message : String)
    (hist : Option (List ChatMessage)) :
    (chat env mem message hist).trace
      = setEvents hist
        ++ [Event.memPut (userMessage message),
            Event.llmChatCall (chatMsgs mem hist message) (syncDocs env message),
            Event.memPut (syncReply env mem hist message).message] := by
  cases hist <;> rfl

theorem cc_chat_memory (env : Env) (mem : Memory) (message : String)
    (hist : Option (List ChatMessage)) :
    (chat env mem message hist).memory
      = chatMsgs mem hist message
        ++ [(syncReply env mem hist message).message] := by
  cases hist <;> rfl

theorem cc_chat_result (env : Env) (mem : Memory) (message : String)
    (hist : Option (List ChatMessage)) (pm : ChatMessage)
    (rest : List ChatMessage)
    (hpm : env.get_prefix_messages_with_context (env.generate_context message).1
      = pm :: rest) :
    (chat env mem message hist).result
      = Except.ok
          { response := strContent (syncReply env mem hist message).message.content,
            citations := dictGet (syncReply env mem hist message).raw "citations"
              (PyVal.listV []),
            documents := dictGet (syncReply env mem hist message).raw "documents"
              (PyVal.listV []),
            sources := [{
              tool_name := "retriever",
              content := strMessage pm,
              raw_input := [("message", PyVal.str message)],
              raw_output := PyVal.msg pm }],
            source_nodes := (env.generate_context message).2 } := by
  cases hist <;>
    simp [chat, hpm, listIndex_cons_zero, lookup_cohereAgent_ok,
      lookup_toolOutput_cohere_ok, syncReply, chatMsgs, syncDocs, effHistory,
      userMessage, Memory.put, Memory.set, Memory.get_all] <;> rfl

theorem cc_stream_chat_trace (env : Env) (mem : Memory) (message : String)
    (hist : Option (List ChatMessage)) :
    (stream_chat env mem message hist).trace
      = setEvents hist
        ++ [Event.memPut (userMessage message),
            Event.llmStreamCall (chatMsgs mem hist message)
              (syncDocs env message)] := by
  cases hist <;> rfl

theorem cc_stream_chat_memory (env : Env) (mem : Memory) (message : String)
    (hist : Option (List ChatMessage)) :
    (stream_chat env mem message hist).memory = chatMsgs mem hist message := by
  cases hist <;> rfl

theorem cc_stream_chat_result (env : Env) (mem : Memory) (message : String)
    (hist : Option (List ChatMessage)) (pm : ChatMessage)
    (rest : List ChatMessage)
    (hpm : env.get_prefix_messages_with_context (env.generate_context message).1
      = pm :: rest) :
    (stream_chat env mem message hist).result
      = Except.ok
          { chat_stream := some (env.llm_stream_chat (chatMsgs mem hist message)
              (syncDocs env message)),
            achat_stream := none,
            sources := [{
              tool_name := "retriever",
              content := strMessage pm,
              raw_input := [("message", PyVal.str message)],
              raw_output := PyVal.msg pm }],
            source_nodes := (env.generate_context message).2 } := by
  cases hist <;>
    simp [stream_chat, hpm, listIndex_cons_zero, lookup_cohereStreaming_ok,
      lookup_toolOutput_cohere_ok, chatMsgs, syncDocs, effHistory,
      userMessage, Memory.put, Memory.set, Memory.get_all] <;> rfl

theorem cc_achat_trace (env : Env) (mem : Memory) (message : String)
    (hist : Option (List ChatMessage)) :
    (achat env mem message hist).trace
      = setEvents hist
        ++ [Event.memPut (userMessage message),
            Event.llmAchatCall (chatMsgs mem hist message) (asyncDocs env message),
            Event.memPut (asyncReply env mem hist message).message] := by
  cases hist <;> rfl

theorem cc_achat_memory (env : Env) (mem : Memory) (message : String)
    (hist : Option (List ChatMessage)) :
    (achat env mem message hist).memory
      = chatMsgs mem hist message
        ++ [(asyncReply env mem hist message).message] := by
  cases hist <;> rfl

theorem cc_achat_result (env : Env) (mem : Memory) (message : String)
    (hist : Option (List ChatMessage)) (pm : ChatMessage)
    (rest : List ChatMessage)
    (hpm : env.get_prefix_messages_with_context (env.agenerate_context message).1
      = pm :: rest) :
    (achat env mem message hist).result
      = Except.ok
          { response := strContent (asyncReply env mem hist message).message.content,
            citations := dictGet (asyncReply env mem hist message).raw "citations"
              (PyVal.listV []),
            documents := dictGet (asyncReply env mem hist message).raw "documents"
              (PyVal.listV []),
            sources := [{
              tool_name := "retriever",
              content := strMessage pm,
              raw_input := [("message", PyVal.str message)],
              raw_output := PyVal.msg pm }],
            source_nodes := (env.agenerate_context message).2 } := by
  cases hist <;>
    simp [achat, hpm, listIndex_cons_zero, lookup_cohereAgent_ok,
      lookup_toolOutput_cohere_ok, asyncReply, chatMsgs, asyncDocs, effHistory,
      userMessage, Memory.put, Memory.set, Memory.get_all] <;> rfl

theorem cc_astream_chat_trace (env : Env) (mem : Memory) (message : String)
    (hist : Option (List ChatMessage)) :
    (astream_chat env mem message hist).trace
      = setEvents hist ++ [Event.memPut (userMessage message)] := by
  cases hist <;> rfl

theorem cc_astream_chat_memory (env : Env) (mem : Memory) (message : String)
    (hist : Option (List ChatMessage)) :
    (astream_chat env mem message hist).memory = chatMsgs mem hist message := by
  cases hist <;> rfl

theorem cc_astream_chat_result_error (env : Env) (mem : Memory) (message : String)
    (hist : Option (List ChatMessage)) :
    (astream_chat env mem message hist).result
      = Except.error (PyError.nameError "StreamingAgentChatResponse") := by
  cases hist <;> rfl

end CohereContextChatEngine

namespace CohereContextPlusCitationsChatEngine

theorem cp_chat_trace (env : Env) (mem : Memory) (message : String)
    (hist : Option (List ChatMessage)) :
    (chat env mem message hist).trace
      = setEvents hist
        ++ [Event.memPut (userMessage message),
            Event.llmChatCall (chatMsgs mem hist message) (syncDocs env message),
            Event.memPut (syncReply env mem hist message).message] := by
  cases hist <;> rfl

theorem cp_chat_memory (env : Env) (mem : Memory) (message : String)
    (hist : Option (List ChatMessage)) :
    (chat env mem message hist).memory
      = chatMsgs mem hist message
        ++ [(syncReply env mem hist message).message] := by
  cases hist <;> rfl

theorem cp_chat_result (env : Env) (mem : Memory) (message : String)
    (hist : Option (List ChatMessage)) (pm : ChatMessage)
    (rest : List ChatMessage)
    (hpm : env.get_prefix_messages_with_context (env.generate_context message).1
      = pm :: rest) :
    (chat env mem message hist).result
      = Except.ok
          { response := strContent (syncReply env mem hist message).message.content,
            sources := [{
              tool_name := "retriever",
              content := strMessage pm,
              raw_input := [("message", PyVal.str message)],
              raw_output := PyVal.dictV [
                ("prefix_message", PyVal.msg pm),
                ("documents_list", dictGet (syncReply env mem hist message).raw
                  "documents" (PyVal.listV [])),
                ("citations", dictGet (syncReply env mem hist message).raw
                  "citations" (PyVal.listV []))] }],
            source_nodes := (env.generate_context message).2 } := by
  cases hist <;>
    simp [chat, hpm, listIndex_cons_zero, lookup_agent_citations_ok,
      lookup_toolOutput_citations_ok, syncReply, chatMsgs, syncDocs, effHistory,
      userMessage, Memory.put, Memory.set, Memory.get_all] <;> rfl

theorem cp_stream_chat_trace (env : Env) (mem : Memory) (message : String)
    (hist : Option (List ChatMessage)) :
    (stream_chat env mem message hist).trace
      = setEvents hist
        ++ [Event.memPut (userMessage message),
            Event.llmStreamCall (chatMsgs mem hist message)
              (syncDocs env message)] := by
  cases hist <;> rfl

theorem cp_stream_chat_memory (env : Env) (mem : Memory) (message : String)
    (hist : Option (List ChatMessage)) :
    (stream_chat env mem message hist).memory = chatMsgs mem hist message := by
  cases hist <;> rfl

theorem cp_stream_chat_result (env : Env) (mem : Memory) (message : String)
    (hist : Option (List ChatMessage)) (pm : ChatMessage)
    (rest : List ChatMessage)
    (hpm : env.get_prefix_messages_with_context (env.generate_context message).1
      = pm :: rest) :
    (stream_chat env mem message hist).result
      = Except.ok
          { chat_stream := some (env.llm_stream_chat (chatMsgs mem hist message)
              (syncDocs env message)),
            achat_stream := none,
            sources := [{
              tool_name := "retriever",
              content := strMessage pm,
              raw_input := [("message", PyVal.str message)],
              raw_output := PyVal.msg pm }],
            source_nodes := (env.generate_context message).2 } := by
  cases hist <;>
    simp [stream_chat, hpm, listIndex_cons_zero, lookup_streaming_citations_ok,
      lookup_toolOutput_citations_ok, chatMsgs, syncDocs, effHistory,
      userMessage, Memory.put, Memory.set, Memory.get_all] <;> rfl

theorem cp_achat_trace (env : Env) (mem : Memory) (message : String)
    (hist : Option (List ChatMessage)) :
    (achat env mem message hist).trace
      = setEvents hist
        ++ [Event.memPut (userMessage message),
            Event.llmAchatCall (chatMsgs mem hist message) (asyncDocs env message),
            Event.memPut (asyncReply env mem hist message).message] := by
  cases hist <;> rfl

theorem cp_achat_memory (env : Env) (mem : Memory) (message : String)
    (hist : Option (List ChatMessage)) :
    (achat env mem message hist).memory
      = chatMsgs mem hist message
        ++ [(asyncReply env mem hist message).message] := by
  cases hist <;> rfl

theorem cp_achat_result (env : Env) (mem : Memory) (message : String)
    (hist : Option (List ChatMessage)) (pm : ChatMessage)
    (rest : List ChatMessage)
    (hpm : env.get_prefix_messages_with_context (env.agenerate_context message).1
      = pm :: rest) :
    (achat env mem message hist).result
      = Except.ok
          { response := strContent (asyncReply env mem hist message).message.content,
            sources := [{
              tool_name := "retriever",
              content := strMessage pm,
              raw_input := [("message", PyVal.str message)],
              raw_output := PyVal.dictV [
                ("prefix_message", PyVal.msg pm),
                ("documents_list", dictGet (asyncReply env mem hist message).raw
                  "documents" (PyVal.listV [])),
                ("citations", dictGet (asyncReply env mem hist message).raw
                  "citations" (PyVal.listV []))] }],
            source_nodes := (env.agenerate_context message).2 } := by
  cases hist <;>
    simp [achat, hpm, listIndex_cons_zero, lookup_agent_citations_ok,
      lookup_toolOutput_citations_ok, asyncReply, chatMsgs, asyncDocs, effHistory,
      userMessage, Memory.put, Memory.set, Memory.get_all] <;> rfl

theorem cp_astream_chat_trace (env : Env) (mem : Memory) (message : String)
    (hist : Option (List ChatMessage)) :
    (astream_chat env mem message hist).trace
      = setEvents hist
        ++ [Event.memPut (userMessage message),
            Event.llmAstreamCall (chatMsgs mem hist message)
              (asyncDocs env message)] := by
  cases hist <;> rfl

theorem cp_astream_chat_memory (env : Env) (mem : Memory) (message : String)
    (hist : Option (List ChatMessage)) :
    (astream_chat env mem message hist).memory = chatMsgs mem hist message := by
  cases hist <;> rfl

theorem cp_astream_chat_result (env : Env) (mem : Memory) (message : String)
    (hist : Option (List ChatMessage)) (pm : ChatMessage)
    (rest : List ChatMessage)
    (hpm : env.get_prefix_messages_with_context (env.agenerate_context message).1
      = pm :: rest) :
    (astream_chat env mem message hist).result
      = Except.ok
          { chat_stream := none,
            achat_stream := some (env.llm_astream_chat (chatMsgs mem hist message)
              (asyncDocs env message)),
            sources := [{
              tool_name := "retriever",
              content := strMessage pm,
              raw_input := [("message", PyVal.str message)],
              raw_output := PyVal.msg pm }],
            source_nodes := (env.agenerate_context message).2 } := by
  cases hist <;>
    simp [astream_chat, hpm, listIndex_cons_zero, lookup_streaming_citations_ok,
      lookup_toolOutput_citations_ok, chatMsgs, asyncDocs, effHistory,
      userMessage, Memory.put, Memory.set, Memory.get_all] <;> rfl

end CohereContextPlusCitationsChatEngine

namespace CohereContextChatEngine

theorem cc_chat_result_empty (env : Env) (mem : Memory) (message : String)
    (hist : Option (List ChatMessage))
    (hpm : env.get_prefix_messages_with_context (env.generate_context message).1
      = []) :
    (chat env mem message hist).result = Except.error PyError.indexError := by
  cases hist <;> simp [chat, hpm, lookup_cohereAgent_ok,
    lookup_toolOutput_cohere_ok] <;> rfl

theorem cc_stream_chat_result_empty (env : Env) (mem : Memory) (message : String)
    (hist : Option (List ChatMessage))
    (hpm : env.get_prefix_messages_with_context (env.generate_context message).1
      = []) :
    (stream_chat env mem message hist).result
      = Except.error PyError.indexError := by
  cases hist <;> simp [stream_chat, hpm, lookup_cohereStreaming_ok,
    lookup_toolOutput_cohere_ok] <;> rfl

theorem cc_achat_result_empty (env : Env) (mem : Memory) (message : String)
    (hist : Option (List ChatMessage))
    (hpm : env.get_prefix_messages_with_context (env.agenerate_context message).1
      = []) :
    (achat env mem message hist).result = Except.error PyError.indexError := by
  cases hist <;> simp [achat, hpm, lookup_cohereAgent_ok,
    lookup_toolOutput_cohere_ok] <;> rfl

end CohereContextChatEngine

namespace CohereContextPlusCitationsChatEngine

theorem cp_chat_result_empty (env : Env) (mem : Memory) (message : String)
    (hist : Option (List ChatMessage))
    (hpm : env.get_prefix_messages_with_context (env.generate_context message).1
      = []) :
    (chat env mem message hist).result = Except.error PyError.indexError := by
  cases hist <;> simp [chat, hpm, lookup_agent_citations_ok,
    lookup_toolOutput_citations_ok] <;> rfl

theorem cp_stream_chat_result_empty (env : Env) (mem : Memory) (message : String)
    (hist : Option (List ChatMessage))
    (hpm : env.get_prefix_messages_with_context (env.generate_context message).1
      = []) :
    (stream_chat env mem message hist).result
      = Except.error PyError.indexError := by
  cases hist <;> simp [stream_chat, hpm, lookup_streaming_citations_ok,
    lookup_toolOutput_citations_ok] <;> rfl

theorem cp_achat_result_empty (env : Env) (mem : Memory) (message : String)
    (hist : Option (List ChatMessage))
    (hpm : env.get_prefix_messages_with_context (env.agenerate_context message).1
      = []) :
    (achat env mem message hist).result = Except.error PyError.indexError := by
  cases hist <;> simp [achat, hpm, lookup_agent_citations_ok,
    lookup_toolOutput_citations_ok] <;> rfl

theorem cp_astream_chat_result_empty (env : Env) (mem : Memory) (message : String)
    (hist : Option (List ChatMessage))
    (hpm : env.get_prefix_messages_with_context (env.agenerate_context message).1
      = []) :
    (astream_chat env mem message hist).result
      = Except.error PyError.indexError := by
  cases hist <;> simp [astream_chat, hpm, lookup_streaming_citations_ok,
    lookup_toolOutput_citations_ok] <;> rfl

end CohereContextPlusCitationsChatEngine

/-- History-replacement discipline claim C6 asserts of one call outcome:
the trace starts with the `set` of the provided history (and no other `set`
anywhere) when one is given, and contains no `set` at all otherwise; the user
message is appended immediately afterwards; and the memory at the
return-or-raise point is the effective history followed by the user message
followed by whatever later appends occurred — the stored history is modified
only by appends. -/
def historyDiscipline {ρ : Type} (r : EngineResult ρ) (mem : Memory)
    (hist : Option (List ChatMessage)) (message : String) : Prop :=
  ∃ rest : List Event,
    r.trace = setEvents hist ++ Event.memPut (userMessage message) :: rest
    ∧ rest.filter Event.isMemSet = []
    ∧ r.memory = (effHistory mem hist ++ [userMessage message])
        ++ rest.filterMap Event.putMessage

/-- C6: for every entry point of both variants, every environment, memory,
message, and optional history: if the history argument is absent, `set` is
never invoked and the stored history is modified only by appends; if it is
provided, `set` is invoked exactly once, before the user-message append, so
the stored history right after the user append is exactly the provided
history followed by the new user message. -/
theorem c6_history_replacement_discipline (env : Env) (mem : Memory)
    (message : String) (hist : Option (List ChatMessage)) :
    historyDiscipline (CohereContextChatEngine.chat env mem message hist)
      mem hist message
    ∧ historyDiscipline (CohereContextChatEngine.stream_chat env mem message hist)
      mem hist message
    ∧ historyDiscipline (CohereContextChatEngine.achat env mem message hist)
      mem hist message
    ∧ historyDiscipline (CohereContextChatEngine.astream_chat env mem message hist)
      mem hist message
    ∧ historyDiscipline (CohereContextPlusCitationsChatEngine.chat env mem message hist)
      mem hist message
    ∧ historyDiscipline (CohereContextPlusCitationsChatEngine.stream_chat env mem message hist)
      mem hist message
    ∧ historyDiscipline (CohereContextPlusCitationsChatEngine.achat env mem message hist)
      mem hist message
    ∧ historyDiscipline (CohereContextPlusCitationsChatEngine.astream_chat env mem message hist)
      mem hist message := by
  refine ⟨?_, ?_, ?_, ?_, ?_, ?_, ?_, ?_⟩
  · exact ⟨[Event.llmChatCall (chatMsgs mem hist message) (syncDocs env message),
        Event.memPut (syncReply env mem hist message).message],
      by rw [CohereContextChatEngine.cc_chat_trace],
      rfl,
      by simp [CohereContextChatEngine.cc_chat_memory, chatMsgs, Event.putMessage]⟩
  · exact ⟨[Event.llmStreamCall (chatMsgs mem hist message) (syncDocs env message)],
      by rw [CohereContextChatEngine.cc_stream_chat_trace],
      rfl,
      by simp [CohereContextChatEngine.cc_stream_chat_memory, chatMsgs,
        Event.putMessage]⟩
  · exact ⟨[Event.llmAchatCall (chatMsgs mem hist message) (asyncDocs env message),
        Event.memPut (asyncReply env mem hist message).message],
      by rw [CohereContextChatEngine.cc_achat_trace],
      rfl,
      by simp [CohereContextChatEngine.cc_achat_memory, chatMsgs, Event.putMessage]⟩
  · exact ⟨[],
      by rw [CohereContextChatEngine.cc_astream_chat_trace],
      rfl,
      by simp [CohereContextChatEngine.cc_astream_chat_memory, chatMsgs,
        Event.putMessage]⟩
  · exact ⟨[Event.llmChatCall (chatMsgs mem hist message) (syncDocs env message),
        Event.memPut (syncReply env mem hist message).message],
      by rw [CohereContextPlusCitationsChatEngine.cp_chat_trace],
      rfl,
      by simp [CohereContextPlusCitationsChatEngine.cp_chat_memory, chatMsgs,
        Event.putMessage]⟩
  · exact ⟨[Event.llmStreamCall (chatMsgs mem hist message) (syncDocs env message)],
      by rw [CohereContextPlusCitationsChatEngine.cp_stream_chat_trace],
      rfl,
      by simp [CohereContextPlusCitationsChatEngine.cp_stream_chat_memory, chatMsgs,
        Event.putMessage]⟩
  · exact ⟨[Event.llmAchatCall (chatMsgs mem hist message) (asyncDocs env message),
        Event.memPut (asyncReply env mem hist message).message],
      by rw [CohereContextPlusCitationsChatEngine.cp_achat_trace],
      rfl,
      by simp [CohereContextPlusCitationsChatEngine.cp_achat_memory, chatMsgs,
        Event.putMessage]⟩
  · exact ⟨[Event.llmAstreamCall (chatMsgs mem hist message) (asyncDocs env message)],
      by rw [CohereContextPlusCitationsChatEngine.cp_astream_chat_trace],
      rfl,
      by simp [CohereContextPlusCitationsChatEngine.cp_astream_chat_memory, chatMsgs,
        Event.putMessage]⟩

/-- Appended-user-message discipline claim C2 asserts of one call trace:
exactly one user-role message is appended to memory, it carries the call's
message argument, and that append lies in the portion of the trace preceding
every LLM invocation. -/
def oneUserPutBeforeLlm (tr : List Event) (message : String) : Prop :=
  tr.filter Event.isUserPut = [Event.memPut (userMessage message)]
    ∧ (beforeLlm tr).filter Event.isUserPut
        = [Event.memPut (userMessage message)]

/-- C2: for every chat entry point of both variants, any message string and
any optional history, exactly one user-role ChatMessage carrying that message
is appended to memory, and this append happens before the LLM invocation.
The LLM collaborator is assumed to reply with assistant-role messages (as the
vendor contract provides), so the reply append never counts as a user
append. -/
theorem c2_exactly_one_user_append_before_llm (env : Env) (mem : Memory)
    (message : String) (hist : Option (List ChatMessage))
    (hchat : ∀ ms ds, (env.llm_chat ms ds).message.role = MessageRole.assistant)
    (hachat : ∀ ms ds, (env.llm_achat ms ds).message.role = MessageRole.assistant) :
    oneUserPutBeforeLlm (CohereContextChatEngine.chat env mem message hist).trace
      message
    ∧ oneUserPutBeforeLlm
        (CohereContextChatEngine.stream_chat env mem message hist).trace message
    ∧ oneUserPutBeforeLlm
        (CohereContextChatEngine.achat env mem message hist).trace message
    ∧ oneUserPutBeforeLlm
        (CohereContextChatEngine.astream_chat env mem message hist).trace message
    ∧ oneUserPutBeforeLlm
        (CohereContextPlusCitationsChatEngine.chat env mem message hist).trace
        message
    ∧ oneUserPutBeforeLlm
        (CohereContextPlusCitationsChatEngine.stream_chat env mem message hist).trace
        message
    ∧ oneUserPutBeforeLlm
        (CohereContextPlusCitationsChatEngine.achat env mem message hist).trace
        message
    ∧ oneUserPutBeforeLlm
        (CohereContextPlusCitationsChatEngine.astream_chat env mem message hist).trace
        message := by
  cases hist <;>
    refine ⟨⟨?_, ?_⟩, ⟨?_, ?_⟩, ⟨?_, ?_⟩, ⟨?_, ?_⟩, ⟨?_, ?_⟩, ⟨?_, ?_⟩,
      ⟨?_, ?_⟩, ⟨?_, ?_⟩⟩ <;>
    simp [CohereContextChatEngine.cc_chat_trace,
      CohereContextChatEngine.cc_stream_chat_trace,
      CohereContextChatEngine.cc_achat_trace,
      CohereContextChatEngine.cc_astream_chat_trace,
      CohereContextPlusCitationsChatEngine.cp_chat_trace,
      CohereContextPlusCitationsChatEngine.cp_stream_chat_trace,
      CohereContextPlusCitationsChatEngine.cp_achat_trace,
      CohereContextPlusCitationsChatEngine.cp_astream_chat_trace,
      beforeLlm, Event.isUserPut, Event.isLlm, setEvents, userMessage,
      syncReply, asyncReply, hchat, hachat]

/-- Witness for C2: at the concrete environment the assistant-role hypotheses
hold, and the discipline holds on an actual call. -/
theorem c2_exactly_one_user_append_before_llm_witness :
    (∀ ms ds, (defaultEnv.llm_chat ms ds).message.role = MessageRole.assistant)
    ∧ oneUserPutBeforeLlm
        (CohereContextChatEngine.chat defaultEnv [] "hi" none).trace "hi" :=
  ⟨fun _ _ => rfl,
    (c2_exactly_one_user_append_before_llm defaultEnv [] "hi" none
      (fun _ _ => rfl) (fun _ _ => rfl)).1⟩

/-- Response record that `CohereContextChatEngine.chat` produces at the
witness environment on message "q" with no history. -/
def sampleCohereResp : CohereAgentChatResponse :=
  { response := "the answer",
    citations := PyVal.listV [PyVal.str "c0"],
    documents := PyVal.listV [PyVal.str "d0"],
    sources := [{
      tool_name := "retriever",
      content := "system: context here",
      raw_input := [("message", PyVal.str "q")],
      raw_output := PyVal.msg ⟨MessageRole.system, some "context here"⟩ }],
    source_nodes := sampleNodes }

/-- C3: for every non-streaming call (chat or achat of either variant),
exactly one assistant message — the LLM reply's message — is appended to
memory after the LLM call returns (the trace is: optional history
replacement, the user append, the LLM call, then exactly the reply-message
append), and the returned response's `.response` text equals the string form
of the LLM reply's message content. -/
theorem c3_nonstreaming_reply_append_and_response_text (env : Env)
    (mem : Memory) (message : String) (hist : Option (List ChatMessage)) :
    ((CohereContextChatEngine.chat env mem message hist).trace
        = setEvents hist
          ++ [Event.memPut (userMessage message),
              Event.llmChatCall (chatMsgs mem hist message) (syncDocs env message),
              Event.memPut (syncReply env mem hist message).message]
      ∧ ∀ resp, (CohereContextChatEngine.chat env mem message hist).result
          = Except.ok resp →
          resp.response
            = strContent (syncReply env mem hist message).message.content)
    ∧ ((CohereContextChatEngine.achat env mem message hist).trace
        = setEvents hist
          ++ [Event.memPut (userMessage message),
              Event.llmAchatCall (chatMsgs mem hist message) (asyncDocs env message),
              Event.memPut (asyncReply env mem hist message).message]
      ∧ ∀ resp, (CohereContextChatEngine.achat env mem message hist).result
          = Except.ok resp →
          resp.response
            = strContent (asyncReply env mem hist message).message.content)
    ∧ ((CohereContextPlusCitationsChatEngine.chat env mem message hist).trace
        = setEvents hist
          ++ [Event.memPut (userMessage message),
              Event.llmChatCall (chatMsgs mem hist message) (syncDocs env message),
              Event.memPut (syncReply env mem hist message).message]
      ∧ ∀ resp,
          (CohereContextPlusCitationsChatEngine.chat env mem message hist).result
          = Except.ok resp →
          resp.response
            = strContent (syncReply env mem hist message).message.content)
    ∧ ((CohereContextPlusCitationsChatEngine.achat env mem message hist).trace
        = setEvents hist
          ++ [Event.memPut (userMessage message),
              Event.llmAchatCall (chatMsgs mem hist message) (asyncDocs env message),
              Event.memPut (asyncReply env mem hist message).message]
      ∧ ∀ resp,
          (CohereContextPlusCitationsChatEngine.achat env mem message hist).result
          = Except.ok resp →
          resp.response
            = strContent (asyncReply env mem hist message).message.content) := by
  refine ⟨⟨CohereContextChatEngine.cc_chat_trace env mem message hist, ?_⟩,
    ⟨CohereContextChatEngine.cc_achat_trace env mem message hist, ?_⟩,
    ⟨CohereContextPlusCitationsChatEngine.cp_chat_trace env mem message hist, ?_⟩,
    ⟨CohereContextPlusCitationsChatEngine.cp_achat_trace env mem message hist, ?_⟩⟩
  · intro resp h
    rcases hp : env.get_prefix_messages_with_context
        (env.generate_context message).1 with _ | ⟨pm, rest⟩
    · rw [CohereContextChatEngine.cc_chat_result_empty env mem message hist hp] at h
      simp at h
    · rw [CohereContextChatEngine.cc_chat_result env mem message hist pm rest hp] at h
      injection h with h
      subst h
      rfl
  · intro resp h
    rcases hp : env.get_prefix_messages_with_context
        (env.agenerate_context message).1 with _ | ⟨pm, rest⟩
    · rw [CohereContextChatEngine.cc_achat_result_empty env mem message hist hp] at h
      simp at h
    · rw [CohereContextChatEngine.cc_achat_result env mem message hist pm rest hp] at h
      injection h with h
      subst h
      rfl
  · intro resp h
    rcases hp : env.get_prefix_messages_with_context
        (env.generate_context message).1 with _ | ⟨pm, rest⟩
    · rw [CohereContextPlusCitationsChatEngine.cp_chat_result_empty
        env mem message hist hp] at h
      simp at h
    · rw [CohereContextPlusCitationsChatEngine.cp_chat_result
        env mem message hist pm rest hp] at h
      injection h with h
      subst h
      rfl
  · intro resp h
    rcases hp : env.get_prefix_messages_with_context
        (env.agenerate_context message).1 with _ | ⟨pm, rest⟩
    · rw [CohereContextPlusCitationsChatEngine.cp_achat_result_empty
        env mem message hist hp] at h
      simp at h
    · rw [CohereContextPlusCitationsChatEngine.cp_achat_result
        env mem message hist pm rest hp] at h
      injection h with h
      subst h
      rfl

/-- Witness for C3: a concrete non-streaming call succeeds and its response
text is the string form of the reply's content. -/
theorem c3_nonstreaming_reply_append_and_response_text_witness :
    (CohereContextChatEngine.chat defaultEnv [] "q" none).result
        = Except.ok sampleCohereResp
    ∧ sampleCohereResp.response
        = strContent (syncReply defaultEnv [] none "q").message.content :=
  ⟨by rfl,
    (c3_nonstreaming_reply_append_and_response_text defaultEnv [] "q" none).1.2
      sampleCohereResp (by rfl)⟩

/-- C4: for every non-streaming call whose raw LLM reply carries values under
the "citations" and "documents" keys, the citation-folding variant returns a
response whose single source's raw_output is the dict holding both values
plus the prefix message, while the non-folding variant exposes top-level
`citations` and `documents` fields equal to those same raw values. -/
theorem c4_citation_document_propagation (env : Env) (mem : Memory)
    (message : String) (hist : Option (List ChatMessage))
    (cv dv cva dva : PyVal)
    (hcs : lookupKey (syncReply env mem hist message).raw "citations" = some cv)
    (hds : lookupKey (syncReply env mem hist message).raw "documents" = some dv)
    (hca : lookupKey (asyncReply env mem hist message).raw "citations" = some cva)
    (hda : lookupKey (asyncReply env mem hist message).raw "documents" = some dva) :
    (∀ resp,
      (CohereContextPlusCitationsChatEngine.chat env mem message hist).result
        = Except.ok resp →
      ∃ pm, (env.get_prefix_messages_with_context
          (env.generate_context message).1).head? = some pm
        ∧ resp.sources = [{
            tool_name := "retriever",
            content := strMessage pm,
            raw_input := [("message", PyVal.str message)],
            raw_output := PyVal.dictV [
              ("prefix_message", PyVal.msg pm),
              ("documents_list", dv),
              ("citations", cv)] }])
    ∧ (∀ resp,
      (CohereContextPlusCitationsChatEngine.achat env mem message hist).result
        = Except.ok resp →
      ∃ pm, (env.get_prefix_messages_with_context
          (env.agenerate_context message).1).head? = some pm
        ∧ resp.sources = [{
            tool_name := "retriever",
            content := strMessage pm,
            raw_input := [("message", PyVal.str message)],
            raw_output := PyVal.dictV [
              ("prefix_message", PyVal.msg pm),
              ("documents_list", dva),
              ("citations", cva)] }])
    ∧ (∀ resp, (CohereContextChatEngine.chat env mem message hist).result
        = Except.ok resp →
      resp.citations = cv ∧ resp.documents = dv)
    ∧ (∀ resp, (CohereContextChatEngine.achat env mem message hist).result
        = Except.ok resp →
      resp.citations = cva ∧ resp.documents = dva) := by
  refine ⟨?_, ?_, ?_, ?_⟩
  · intro resp h
    rcases hp : env.get_prefix_messages_with_context
        (env.generate_context message).1 with _ | ⟨pm, rest⟩
    · rw [CohereContextPlusCitationsChatEngine.cp_chat_result_empty
        env mem message hist hp] at h
      simp at h
    · rw [CohereContextPlusCitationsChatEngine.cp_chat_result
        env mem message hist pm rest hp] at h
      injection h with h
      subst h
      exact ⟨pm, rfl, by simp [dictGet, hcs, hds]⟩
  · intro resp h
    rcases hp : env.get_prefix_messages_with_context
        (env.agenerate_context message).1 with _ | ⟨pm, rest⟩
    · rw [CohereContextPlusCitationsChatEngine.cp_achat_result_empty
        env mem message hist hp] at h
      simp at h
    · rw [CohereContextPlusCitationsChatEngine.cp_achat_result
        env mem message hist pm rest hp] at h
      injection h with h
      subst h
      exact ⟨pm, rfl, by simp [dictGet, hca, hda]⟩
  · intro resp h
    rcases hp : env.get_prefix_messages_with_context
        (env.generate_context message).1 with _ | ⟨pm, rest⟩
    · rw [CohereContextChatEngine.cc_chat_result_empty env mem message hist hp] at h
      simp at h
    · rw [CohereContextChatEngine.cc_chat_result env mem message hist pm rest hp] at h
      injection h with h
      subst h
      exact ⟨by simp [dictGet, hcs], by simp [dictGet, hds]⟩
  · intro resp h
    rcases hp : env.get_prefix_messages_with_context
        (env.agenerate_context message).1 with _ | ⟨pm, rest⟩
    · rw [CohereContextChatEngine.cc_achat_result_empty env mem message hist hp] at h
      simp at h
    · rw [CohereContextChatEngine.cc_achat_result env mem message hist pm rest hp] at h
      injection h with h
      subst h
      exact ⟨by simp [dictGet, hca], by simp [dictGet, hda]⟩

/-- Witness for C4: the concrete reply carries both keys, and a concrete
non-folding call exposes exactly those values at top level. -/
theorem c4_citation_document_propagation_witness :
    lookupKey (syncReply defaultEnv [] none "q").raw "citations"
        = some (PyVal.listV [PyVal.str "c0"])
    ∧ sampleCohereResp.citations = PyVal.listV [PyVal.str "c0"]
    ∧ sampleCohereResp.documents = PyVal.listV [PyVal.str "d0"] :=
  ⟨rfl,
    ((c4_citation_document_propagation defaultEnv [] "q" none
        (PyVal.listV [PyVal.str "c0"]) (PyVal.listV [PyVal.str "d0"])
        (PyVal.listV [PyVal.str "c0"]) (PyVal.listV [PyVal.str "d0"])
        rfl rfl rfl rfl).2.2.1 sampleCohereResp (by rfl)).1,
    ((c4_citation_document_propagation defaultEnv [] "q" none
        (PyVal.listV [PyVal.str "c0"]) (PyVal.listV [PyVal.str "d0"])
        (PyVal.listV [PyVal.str "c0"]) (PyVal.listV [PyVal.str "d0"])
        rfl rfl rfl rfl).2.2.1 sampleCohereResp (by rfl)).2⟩

/-- C5: for every non-streaming call whose raw LLM reply lacks the
"citations" and "documents" keys entirely (and whose prefix-message list is
non-empty, so the return expression itself is constructible), both variants
return normally with those fields defaulted to empty lists: empty top-level
citations/documents in the non-folding variant, and empty lists under
"citations" / "documents_list" in the folding variant's source raw_output. -/
theorem c5_missing_keys_default_to_empty (env : Env) (mem : Memory)
    (message : String) (hist : Option (List ChatMessage))
    (hcs : lookupKey (syncReply env mem hist message).raw "citations" = none)
    (hds : lookupKey (syncReply env mem hist message).raw "documents" = none)
    (hca : lookupKey (asyncReply env mem hist message).raw "citations" = none)
    (hda : lookupKey (asyncReply env mem hist message).raw "documents" = none)
    (hps : env.get_prefix_messages_with_context
      (env.generate_context message).1 ≠ [])
    (hpa : env.get_prefix_messages_with_context
      (env.agenerate_context message).1 ≠ []) :
    (∃ resp, (CohereContextChatEngine.chat env mem message hist).result
        = Except.ok resp
      ∧ resp.citations = PyVal.listV [] ∧ resp.documents = PyVal.listV [])
    ∧ (∃ resp, (CohereContextChatEngine.achat env mem message hist).result
        = Except.ok resp
      ∧ resp.citations = PyVal.listV [] ∧ resp.documents = PyVal.listV [])
    ∧ (∃ resp pm,
      (CohereContextPlusCitationsChatEngine.chat env mem message hist).result
        = Except.ok resp
      ∧ resp.sources = [{
          tool_name := "retriever",
          content := strMessage pm,
          raw_input := [("message", PyVal.str message)],
          raw_output := PyVal.dictV [
            ("prefix_message", PyVal.msg pm),
            ("documents_list", PyVal.listV []),
            ("citations", PyVal.listV [])] }])
    ∧ (∃ resp pm,
      (CohereContextPlusCitationsChatEngine.achat env mem message hist).result
        = Except.ok resp
      ∧ resp.sources = [{
          tool_name := "retriever",
          content := strMessage pm,
          raw_input := [("message", PyVal.str message)],
          raw_output := PyVal.dictV [
            ("prefix_message", PyVal.msg pm),
            ("documents_list", PyVal.listV []),
            ("citations", PyVal.listV [])] }]) := by
  rcases hp : env.get_prefix_messages_with_context
      (env.generate_context message).1 with _ | ⟨pm, rest⟩
  · exact absurd hp hps
  · rcases hq : env.get_prefix_messages_with_context
        (env.agenerate_context message).1 with _ | ⟨pma, resta⟩
    · exact absurd hq hpa
    · refine ⟨⟨_, CohereContextChatEngine.cc_chat_result env mem message hist
          pm rest hp, ?_, ?_⟩,
        ⟨_, CohereContextChatEngine.cc_achat_result env mem message hist
          pma resta hq, ?_, ?_⟩,
        ⟨_, pm, CohereContextPlusCitationsChatEngine.cp_chat_result
          env mem message hist pm rest hp, ?_⟩,
        ⟨_, pma, CohereContextPlusCitationsChatEngine.cp_achat_result
          env mem message hist pma resta hq, ?_⟩⟩ <;>
      simp [dictGet, hcs, hds, hca, hda]

/-- Witness for C5: at the bare environment the reply raw payload has no
keys, and a concrete call returns normally with empty defaults. -/
theorem c5_missing_keys_default_to_empty_witness :
    lookupKey (syncReply bareEnv [] none "q").raw "citations" = none
    ∧ ∃ resp, (CohereContextChatEngine.chat bareEnv [] "q" none).result
        = Except.ok resp
      ∧ resp.citations = PyVal.listV [] ∧ resp.documents = PyVal.listV [] :=
  ⟨rfl,
    (c5_missing_keys_default_to_empty bareEnv [] "q" none rfl rfl rfl rfl
      (List.cons_ne_nil _ _) (List.cons_ne_nil _ _)).1⟩

/-- Single-retriever-source shape claim C9 asserts of one returned response's
sources list, relative to the prefix-message list the call computed: exactly
one ToolOutput, with tool name "retriever", content the string form of the
first prefix message, and raw input the singleton dict binding "message" to
the call's message argument. -/
def singleRetrieverSource (sources : List ToolOutput)
    (prefix_messages : List ChatMessage) (message : String) : Prop :=
  ∃ pm rout, prefix_messages.head? = some pm
    ∧ sources = [{
        tool_name := "retriever",
        content := strMessage pm,
        raw_input := [("message", PyVal.str message)],
        raw_output := rout }]

/-- C9: every response object returned by any of the eight chat entry points
has a sources list containing exactly one ToolOutput, whose tool_name is
"retriever", whose content is the string form of the first prefix message,
and whose raw_input is the dict binding "message" to the call's message
argument.  (`CohereContextChatEngine.astream_chat` returns no response at
all — its conjunct is vacuous.) -/
theorem c9_every_response_single_retriever_source (env : Env) (mem : Memory)
    (message : String) (hist : Option (List ChatMessage)) :
    (∀ resp, (CohereContextChatEngine.chat env mem message hist).result
        = Except.ok resp →
      singleRetrieverSource resp.sources
        (env.get_prefix_messages_with_context (env.generate_context message).1)
        message)
    ∧ (∀ resp, (CohereContextChatEngine.stream_chat env mem message hist).result
        = Except.ok resp →
      singleRetrieverSource resp.sources
        (env.get_prefix_messages_with_context (env.generate_context message).1)
        message)
    ∧ (∀ resp, (CohereContextChatEngine.achat env mem message hist).result
        = Except.ok resp →
      singleRetrieverSource resp.sources
        (env.get_prefix_messages_with_context (env.agenerate_context message).1)
        message)
    ∧ (∀ resp, (CohereContextChatEngine.astream_chat env mem message hist).result
        = Except.ok resp →
      singleRetrieverSource resp.sources
        (env.get_prefix_messages_with_context (env.agenerate_context message).1)
        message)
    ∧ (∀ resp,
      (CohereContextPlusCitationsChatEngine.chat env mem message hist).result
        = Except.ok resp →
      singleRetrieverSource resp.sources
        (env.get_prefix_messages_with_context (env.generate_context message).1)
        message)
    ∧ (∀ resp,
      (CohereContextPlusCitationsChatEngine.stream_chat env mem message hist).result
        = Except.ok resp →
      singleRetrieverSource resp.sources
        (env.get_prefix_messages_with_context (env.generate_context message).1)
        message)
    ∧ (∀ resp,
      (CohereContextPlusCitationsChatEngine.achat env mem message hist).result
        = Except.ok resp →
      singleRetrieverSource resp.sources
        (env.get_prefix_messages_with_context (env.agenerate_context message).1)
        message)
    ∧ (∀ resp,
      (CohereContextPlusCitationsChatEngine.astream_chat env mem message hist).result
        = Except.ok resp →
      singleRetrieverSource resp.sources
        (env.get_prefix_messages_with_context (env.agenerate_context message).1)
        message) := by
  refine ⟨?_, ?_, ?_, ?_, ?_, ?_, ?_, ?_⟩
  · intro resp h
    rcases hp : env.get_prefix_messages_with_context
        (env.generate_context message).1 with _ | ⟨pm, rest⟩
    · rw [CohereContextChatEngine.cc_chat_result_empty env mem message hist hp] at h
      simp at h
    · rw [CohereContextChatEngine.cc_chat_result env mem message hist pm rest hp] at h
      injection h with h
      subst h
      exact ⟨pm, _, rfl, rfl⟩
  · intro resp h
    rcases hp : env.get_prefix_messages_with_context
        (env.generate_context message).1 with _ | ⟨pm, rest⟩
    · rw [CohereContextChatEngine.cc_stream_chat_result_empty
        env mem message hist hp] at h
      simp at h
    · rw [CohereContextChatEngine.cc_stream_chat_result
        env mem message hist pm rest hp] at h
      injection h with h
      subst h
      exact ⟨pm, _, rfl, rfl⟩
  · intro resp h
    rcases hp : env.get_prefix_messages_with_context
        (env.agenerate_context message).1 with _ | ⟨pm, rest⟩
    · rw [CohereContextChatEngine.cc_achat_result_empty env mem message hist hp] at h
      simp at h
    · rw [CohereContextChatEngine.cc_achat_result env mem message hist pm rest hp] at h
      injection h with h
      subst h
      exact ⟨pm, _, rfl, rfl⟩
  · intro resp h
    rw [CohereContextChatEngine.cc_astream_chat_result_error
      env mem message hist] at h
    simp at h
  · intro resp h
    rcases hp : env.get_prefix_messages_with_context
        (env.generate_context message).1 with _ | ⟨pm, rest⟩
    · rw [CohereContextPlusCitationsChatEngine.cp_chat_result_empty
        env mem message hist hp] at h
      simp at h
    · rw [CohereContextPlusCitationsChatEngine.cp_chat_result
        env mem message hist pm rest hp] at h
      injection h with h
      subst h
      exact ⟨pm, _, rfl, rfl⟩
  · intro resp h
    rcases hp : env.get_prefix_messages_with_context
        (env.generate_context message).1 with _ | ⟨pm, rest⟩
    · rw [CohereContextPlusCitationsChatEngine.cp_stream_chat_result_empty
        env mem message hist hp] at h
      simp at h
    · rw [CohereContextPlusCitationsChatEngine.cp_stream_chat_result
        env mem message hist pm rest hp] at h
      injection h with h
      subst h
      exact ⟨pm, _, rfl, rfl⟩
  · intro resp h
    rcases hp : env.get_prefix_messages_with_context
        (env.agenerate_context message).1 with _ | ⟨pm, rest⟩
    · rw [CohereContextPlusCitationsChatEngine.cp_achat_result_empty
        env mem message hist hp] at h
      simp at h
    · rw [CohereContextPlusCitationsChatEngine.cp_achat_result
        env mem message hist pm rest hp] at h
      injection h with h
      subst h
      exact ⟨pm, _, rfl, rfl⟩
  · intro resp h
    rcases hp : env.get_prefix_messages_with_context
        (env.agenerate_context message).1 with _ | ⟨pm, rest⟩
    · rw [CohereContextPlusCitationsChatEngine.cp_astream_chat_result_empty
        env mem message hist hp] at h
      simp at h
    · rw [CohereContextPlusCitationsChatEngine.cp_astream_chat_result
        env mem message hist pm rest hp] at h
      injection h with h
      subst h
      exact ⟨pm, _, rfl, rfl⟩

/-- Witness for C9: a concrete successful call whose returned sources list
has the single-retriever shape. -/
theorem c9_every_response_single_retriever_source_witness :
    (CohereContextChatEngine.chat defaultEnv [] "q" none).result
        = Except.ok sampleCohereResp
    ∧ singleRetrieverSource sampleCohereResp.sources
        (defaultEnv.get_prefix_messages_with_context
          (defaultEnv.generate_context "q").1) "q" :=
  ⟨by rfl,
    (c9_every_response_single_retriever_source defaultEnv [] "q" none).1
      sampleCohereResp (by rfl)⟩

/-- C10: for each variant, synchronous chat and asynchronous achat are
equivalent: when the collaborators' asynchronous context generation and LLM
chat return the same values as their synchronous counterparts, both calls
return equal response outcomes, leave equal memory, and perform the same
sequence of memory updates. -/
theorem c10_chat_achat_equivalent (env : Env) (mem : Memory)
    (message : String) (hist : Option (List ChatMessage))
    (hg : env.agenerate_context = env.generate_context)
    (hl : env.llm_achat = env.llm_chat) :
    ((CohereContextChatEngine.achat env mem message hist).result
        = (CohereContextChatEngine.chat env mem message hist).result
      ∧ (CohereContextChatEngine.achat env mem message hist).memory
        = (CohereContextChatEngine.chat env mem message hist).memory
      ∧ (CohereContextChatEngine.achat env mem message hist).trace.filter
            Event.isMemOp
        = (CohereContextChatEngine.chat env mem message hist).trace.filter
            Event.isMemOp)
    ∧ ((CohereContextPlusCitationsChatEngine.achat env mem message hist).result
        = (CohereContextPlusCitationsChatEngine.chat env mem message hist).result
      ∧ (CohereContextPlusCitationsChatEngine.achat env mem message hist).memory
        = (CohereContextPlusCitationsChatEngine.chat env mem message hist).memory
      ∧ (CohereContextPlusCitationsChatEngine.achat env mem message hist).trace.filter
            Event.isMemOp
        = (CohereContextPlusCitationsChatEngine.chat env mem message hist).trace.filter
            Event.isMemOp) := by
  cases hist <;>
    refine ⟨⟨?_, ?_, ?_⟩, ⟨?_, ?_, ?_⟩⟩ <;>
    simp [CohereContextChatEngine.achat, CohereContextChatEngine.chat,
      CohereContextPlusCitationsChatEngine.achat,
      CohereContextPlusCitationsChatEngine.chat,
      hg, hl, Event.isMemOp, Memory.put, Memory.set, Memory.get_all]

/-- Witness for C10: at the concrete environment the sync and async
collaborators coincide, and a concrete achat call returns the same outcome
as chat. -/
theorem c10_chat_achat_equivalent_witness :
    defaultEnv.agenerate_context = defaultEnv.generate_context
    ∧ (CohereContextChatEngine.achat defaultEnv [] "q" none).result
        = (CohereContextChatEngine.chat defaultEnv [] "q" none).result :=
  ⟨rfl, (c10_chat_achat_equivalent defaultEnv [] "q" none rfl rfl).1.1⟩
